import Mathlib

/-!
Verification of the MedFill document field pipeline (src/MedFill.py).

Strings from the Python source are modelled as `List Char`; Python's
`str.find`, `str.rfind` and slicing are embedded directly.  The two
`re.sub` repair passes of `extract_json` are embedded as deterministic
scanners: both patterns have disjoint character classes at every
backtracking point, so the greedy left-to-right match of Python's `re`
engine is reproduced exactly by maximal-munch scanning.
-/

namespace MedFill

/-- The character `\x7b` (opening curly brace). -/
def braceL : Char := Char.ofNat 123

/-- The character `\x7d` (closing curly brace). -/
def braceR : Char := Char.ofNat 125

/-- Python's `\s` class for the ASCII range (space, tab, newline,
carriage return, vertical tab, form feed), as used by the two repair
regexes in `extract_json`. -/
def pyIsSpace (c : Char) : Bool :=
  c == ' ' || c == '\t' || c == '\n' || c == '\r' || c == '\x0b' || c == '\x0c'

/-- The character class `[A-Za-z0-9_]` of the key-repair regex. -/
def isWordChar (c : Char) : Bool :=
  c.isAlpha || c.isDigit || c == '_'

/-- Python `str.find` restricted to a single character: index of the
first occurrence, `none` for Python's `-1`. -/
def pyFind (c : Char) : List Char → Option Nat
  | [] => none
  | x :: xs => if x = c then some 0 else (pyFind c xs).map (· + 1)

/-- Python `str.rfind` restricted to a single character: index of the
last occurrence, `none` for Python's `-1`. -/
def pyRfind (c : Char) : List Char → Option Nat
  | [] => none
  | x :: xs =>
    match pyRfind c xs with
    | some i => some (i + 1)
    | none => if x = c then some 0 else none

/-- Python slice `s[a:b]` for `0 ≤ a, b` (empty when the bounds cross,
as in the source's `text[start:end+1]` when the last brace precedes the
first). -/
def pySlice (s : List Char) (a b : Nat) : List Char :=
  (s.drop a).take (b - a)

/-- One match attempt of the pattern `\s*([A-Za-z0-9_]+)\s*:` (the body
of `r'(?m)^\s*([A-Za-z0-9_]+)\s*:'` after its line anchor).  Returns the
captured identifier and the text after the colon.  Whitespace, word
characters and `:` are pairwise disjoint classes, so greedy matching is
maximal munch and needs no backtracking. -/
def matchKey (s : List Char) : Option (List Char × List Char) :=
  let s1 := s.dropWhile pyIsSpace
  let ident := s1.takeWhile isWordChar
  if ident.isEmpty then none
  else
    match (s1.dropWhile isWordChar).dropWhile pyIsSpace with
    | c :: rest => if c == ':' then some (ident, rest) else none
    | [] => none

/-- Left-to-right scan of `re.sub(r'(?m)^\s*([A-Za-z0-9_]+)\s*:', r'"\1":', raw)`.
The boolean tracks whether the current position is a line start (the
`(?m)` form of `^`: position 0 or right after a newline).  Fuel starts
at the list length; every step consumes at least one character, so the
fuel-exhaustion branch is reached only on the empty remainder, where
returning the remainder is exact. -/
def sub1Aux : Nat → Bool → List Char → List Char
  | 0, _, s => s
  | _ + 1, _, [] => []
  | fuel + 1, atStart, c :: rest =>
    if atStart then
      match matchKey (c :: rest) with
      | some (ident, rest2) => '"' :: (ident ++ '"' :: ':' :: sub1Aux fuel false rest2)
      | none => c :: sub1Aux fuel (c == '\n') rest
    else
      c :: sub1Aux fuel (c == '\n') rest

/-- The first repair pass of `extract_json`: requote bare object keys at
line starts. -/
def sub1 (s : List Char) : List Char := sub1Aux s.length true s

/-- One match attempt of `,\s*([}\]])`: a comma, optional whitespace and
a closing brace or bracket; returns the captured closer and the rest. -/
def matchComma (s : List Char) : Option (Char × List Char) :=
  match s with
  | c :: rest =>
    if c == ',' then
      match rest.dropWhile pyIsSpace with
      | b :: rest2 => if b == braceR || b == ']' then some (b, rest2) else none
      | [] => none
    else none
  | [] => none

/-- Left-to-right scan of `re.sub(r',\s*([}\]])', r'\1', raw)` (delete
trailing commas before a closer).  Fuel as in `sub1Aux`. -/
def sub2Aux : Nat → List Char → List Char
  | 0, s => s
  | _ + 1, [] => []
  | fuel + 1, c :: rest =>
    match matchComma (c :: rest) with
    | some (b, rest2) => b :: sub2Aux fuel rest2
    | none => c :: sub2Aux fuel rest

/-- The second repair pass of `extract_json`: drop trailing commas. -/
def sub2 (s : List Char) : List Char := sub2Aux s.length s

/-- `extract_json` from src/MedFill.py lines 43-51: locate the first
opening and last closing brace (raising `ValueError("No JSON object
found")` when either is absent), slice inclusively, apply both repair
passes and return the repaired text.  The raised `ValueError` — the
spec's `MalformedResponseError` — is modelled as the `Except.error`
branch carrying the source's message. -/
def extract_json (text : List Char) : Except String (List Char) :=
  match pyFind braceL text, pyRfind braceR text with
  | some s, some e => .ok (sub2 (sub1 (pySlice text s (e + 1))))
  | _, _ => .error "No JSON object found"

/-!
### Strict JSON parsing (`json.loads`)

`json.loads` is the strict parser the source applies to the Recoverer's
output.  Values are modelled by `JVal`; number literals are kept as
their source text (strict JSON integer literals are already canonical,
and no claim computes with a numeric value).  The default-mode extras of
Python's decoder that never arise here (`NaN`/`Infinity` literals and
surrogate-pair combination in `\u` escapes) are not modelled.
-/

/-- A decoded JSON value, as produced by `json.loads`: objects are
insertion-ordered key/value lists (Python dicts preserve order). -/
inductive JVal where
  | null : JVal
  | bool : Bool → JVal
  | num : String → JVal
  | str : String → JVal
  | arr : List JVal → JVal
  | obj : List (String × JVal) → JVal

/-- JSON inter-token whitespace (`json.decoder.WHITESPACE`): space, tab,
newline, carriage return. -/
def jsonWs (c : Char) : Bool :=
  c == ' ' || c == '\t' || c == '\n' || c == '\r'

/-- Value of a hexadecimal digit, for `\u` escapes. -/
def hexDigitVal (c : Char) : Option Nat :=
  if c.isDigit then some (c.toNat - 48)
  else if 97 ≤ c.toNat && c.toNat ≤ 102 then some (c.toNat - 87)
  else if 65 ≤ c.toNat && c.toNat ≤ 70 then some (c.toNat - 55)
  else none

/-- Body of a JSON string literal, after the opening quote: strict mode,
so raw control characters below 0x20 are rejected.  Returns the decoded
characters and the text after the closing quote. -/
def parseStringBody : Nat → List Char → List Char → Option (List Char × List Char)
  | 0, _, _ => none
  | _ + 1, _, [] => none
  | fuel + 1, acc, c :: rest =>
    if c == '"' then some (acc.reverse, rest)
    else if c == '\\' then
      match rest with
      | [] => none
      | e :: rest2 =>
        if e == '"' then parseStringBody fuel ('"' :: acc) rest2
        else if e == '\\' then parseStringBody fuel ('\\' :: acc) rest2
        else if e == '/' then parseStringBody fuel ('/' :: acc) rest2
        else if e == 'b' then parseStringBody fuel ('\x08' :: acc) rest2
        else if e == 'f' then parseStringBody fuel ('\x0c' :: acc) rest2
        else if e == 'n' then parseStringBody fuel ('\n' :: acc) rest2
        else if e == 'r' then parseStringBody fuel ('\r' :: acc) rest2
        else if e == 't' then parseStringBody fuel ('\t' :: acc) rest2
        else if e == 'u' then
          match rest2 with
          | h1 :: h2 :: h3 :: h4 :: rest3 =>
            match hexDigitVal h1, hexDigitVal h2, hexDigitVal h3, hexDigitVal h4 with
            | some a, some b, some c2, some d =>
              parseStringBody fuel (Char.ofNat (((a * 16 + b) * 16 + c2) * 16 + d) :: acc) rest3
            | _, _, _, _ => none
          | _ => none
        else none
    else if c.toNat < 32 then none
    else parseStringBody fuel (c :: acc) rest

/-- Maximal run of decimal digits and the remainder. -/
def digitRun (s : List Char) : List Char × List Char :=
  (s.takeWhile Char.isDigit, s.dropWhile Char.isDigit)

/-- Integer part of a JSON number: `0`, or a nonzero digit followed by
digits (leading zeros rejected, as in strict JSON). -/
def parseIntPart : List Char → Option (List Char × List Char)
  | [] => none
  | c :: r =>
    if c == '0' then some (['0'], r)
    else if c.isDigit then
      let (ds, r2) := digitRun r
      some (c :: ds, r2)
    else none

/-- Optional fraction part `.[0-9]+`. -/
def parseFrac (s : List Char) : Option (List Char × List Char) :=
  match s with
  | '.' :: r =>
    let (ds, r2) := digitRun r
    if ds.isEmpty then none else some ('.' :: ds, r2)
  | _ => some ([], s)

/-- Optional exponent part `[eE][+-]?[0-9]+`. -/
def parseExp (s : List Char) : Option (List Char × List Char) :=
  match s with
  | e :: r =>
    if e == 'e' || e == 'E' then
      let (sgn, r1) : List Char × List Char :=
        match r with
        | '+' :: rr => (['+'], rr)
        | '-' :: rr => (['-'], rr)
        | _ => ([], r)
      let (ds, r2) := digitRun r1
      if ds.isEmpty then none else some (e :: (sgn ++ ds), r2)
    else some ([], s)
  | [] => some ([], [])

/-- A full JSON number literal (kept as text) and the remainder. -/
def parseNumber (s : List Char) : Option (List Char × List Char) :=
  let (neg, s1) : List Char × List Char :=
    match s with
    | c :: r => if c == '-' then ([c], r) else ([], s)
    | [] => ([], [])
  match parseIntPart s1 with
  | none => none
  | some (ip, r1) =>
    match parseFrac r1 with
    | none => none
    | some (fp, r2) =>
      match parseExp r2 with
      | none => none
      | some (ep, r3) => some (neg ++ ip ++ fp ++ ep, r3)

mutual

/-- A JSON value at the head of the text (no leading whitespace).
Fuel decreases on every container nesting and every member iteration,
each of which consumes at least one character, so `length + 1` fuel
never exhausts. -/
def parseValue : Nat → List Char → Option (JVal × List Char)
  | 0, _ => none
  | fuel + 1, s =>
    match s with
    | [] => none
    | c :: rest =>
      if c == braceL then
        match rest.dropWhile jsonWs with
        | d :: r => if d == braceR then some (.obj [], r) else parseObjBody fuel (rest.dropWhile jsonWs) []
        | [] => none
      else if c == '[' then
        match rest.dropWhile jsonWs with
        | d :: r => if d == ']' then some (.arr [], r) else parseArrBody fuel (rest.dropWhile jsonWs) []
        | [] => none
      else if c == '"' then
        match parseStringBody (rest.length + 1) [] rest with
        | some (cs, r) => some (.str (String.mk cs), r)
        | none => none
      else if c == 't' then
        match rest with
        | 'r' :: 'u' :: 'e' :: r => some (.bool true, r)
        | _ => none
      else if c == 'f' then
        match rest with
        | 'a' :: 'l' :: 's' :: 'e' :: r => some (.bool false, r)
        | _ => none
      else if c == 'n' then
        match rest with
        | 'u' :: 'l' :: 'l' :: r => some (.null, r)
        | _ => none
      else if c == '-' || c.isDigit then
        match parseNumber s with
        | some (lit, r) => some (.num (String.mk lit), r)
        | none => none
      else none

/-- Members of a nonempty object: a quoted key, a colon, a value, then a
comma (more members) or the closing brace.  A comma followed by the
closing brace fails, as in strict JSON. -/
def parseObjBody : Nat → List Char → List (String × JVal) → Option (JVal × List Char)
  | 0, _, _ => none
  | fuel + 1, s, acc =>
    match s with
    | [] => none
    | c :: r =>
      if c == '"' then
        match parseStringBody (r.length + 1) [] r with
        | some (key, r1) =>
          match r1.dropWhile jsonWs with
          | ':' :: r2 =>
            match parseValue fuel (r2.dropWhile jsonWs) with
            | some (v, r3) =>
              match r3.dropWhile jsonWs with
              | d :: r4 =>
                if d == ',' then parseObjBody fuel (r4.dropWhile jsonWs) (acc ++ [(String.mk key, v)])
                else if d == braceR then some (.obj (acc ++ [(String.mk key, v)]), r4)
                else none
              | [] => none
            | none => none
          | _ => none
        | none => none
      else none

/-- Elements of a nonempty array: a value, then a comma (more elements)
or the closing bracket. -/
def parseArrBody : Nat → List Char → List JVal → Option (JVal × List Char)
  | 0, _, _ => none
  | fuel + 1, s, acc =>
    match parseValue fuel s with
    | some (v, r) =>
      match r.dropWhile jsonWs with
      | d :: r2 =>
        if d == ',' then parseArrBody fuel (r2.dropWhile jsonWs) (acc ++ [v])
        else if d == ']' then some (.arr (acc ++ [v]), r2)
        else none
      | [] => none
    | none => none

end

/-- `json.loads`: skip leading whitespace, parse one value, and require
only whitespace to remain (Python raises "Extra data" otherwise,
modelled as `none`). -/
def loads (s : List Char) : Option JVal :=
  match parseValue (s.length + 1) (s.dropWhile jsonWs) with
  | some (v, rest) => if (rest.dropWhile jsonWs).isEmpty then some v else none
  | none => none

/-!
### Python value coercions

The fill loop writes `"Yes" if bool(val) else "Off"` into checkbox
widgets and `str(val)` into every other widget, where `val` is a value
decoded by `json.loads`.
-/

/-- Whether a JSON number literal denotes zero: its mantissa (the text
before any exponent marker) has no nonzero digit. -/
def numLitIsZero (lit : String) : Bool :=
  (lit.data.takeWhile (fun c => !(c == 'e' || c == 'E'))).all
    (fun c => !c.isDigit || c == '0')

/-- Python `str()` of a number decoded by `json.loads`.  Strict JSON
integer literals are already Python's canonical decimal form except
`-0`, whose `int` prints as `0`.  For float literals Python prints the
shortest round-tripping repr of the parsed double; it is modelled here
by the literal itself, which is exact for such shortest literals. -/
def pyNumStr (lit : String) : String := if lit == "-0" then "0" else lit

mutual

/-- Python `repr` of a `json.loads` result, the fallback of `str()` for
containers: lists as `[a, b]`, dicts as brace-wrapped `k: v` pairs,
strings quoted with `\x27` (quote-escaping inside the repr of a string
that itself holds quotes is not modelled; no claim exercises it). -/
def pyRepr : JVal → String
  | .null => "None"
  | .bool true => "True"
  | .bool false => "False"
  | .num lit => pyNumStr lit
  | .str s => "\x27" ++ s ++ "\x27"
  | .arr xs => "[" ++ String.intercalate ", " (pyReprList xs) ++ "]"
  | .obj kvs => "\x7b" ++ String.intercalate ", " (pyReprObj kvs) ++ "\x7d"

/-- `pyRepr` across a list's elements. -/
def pyReprList : List JVal → List String
  | [] => []
  | v :: vs => pyRepr v :: pyReprList vs

/-- `pyRepr` across a dict's pairs. -/
def pyReprObj : List (String × JVal) → List String
  | [] => []
  | (k, v) :: rest => ("\x27" ++ k ++ "\x27: " ++ pyRepr v) :: pyReprObj rest

end

/-- Python `str()` of a `json.loads` result: identity on strings,
`repr` otherwise (`None`/`True`/`False`/numbers/containers). -/
def pyStr : JVal → String
  | .str s => s
  | v => pyRepr v

/-- Python truthiness `bool()` of a `json.loads` result: `None` and
empty/zero values are falsy. -/
def pyBool : JVal → Bool
  | .null => false
  | .bool b => b
  | .num lit => !numLitIsZero lit
  | .str s => !s.isEmpty
  | .arr xs => !xs.isEmpty
  | .obj kvs => !kvs.isEmpty

/-!
### Document model

PyMuPDF documents are modelled per spec section 6: a page-oriented
container whose pages carry interactive widgets with a name, a type, a
current value and a bounding rectangle (floats modelled as rationals).
`copyError` models whether extracting this page structurally (the
`insert_pdf`/`delete_widget`/`save` path of `make_page_part`) raises,
and with which message — the spec's "cross-reference or similar
corruption" condition of an otherwise opaque library call.
-/

/-- PyMuPDF widget types (`PDF_WIDGET_TYPE_*`). -/
inductive WidgetType where
  | text | checkbox | radiobutton | combobox | listbox | signature | button
deriving DecidableEq

/-- An interactive form widget. -/
structure Widget where
  field_name : String
  field_type : WidgetType
  field_value : String
  rect : List ℚ
deriving DecidableEq

/-- One page of a form document. -/
structure PdfPage where
  widgets : List Widget
  width : ℚ
  height : ℚ
  copyError : Option String
deriving DecidableEq

/-- A form document: an ordered sequence of pages. -/
structure PdfDoc where
  pages : List PdfPage

/-- Python `enumerate(doc, start=1)` over pages. -/
def enumPages : Nat → List PdfPage → List (Nat × PdfPage)
  | _, [] => []
  | n, p :: ps => (n, p) :: enumPages (n + 1) ps

/-- The extractor's kind tag (MedFill.py line 111): `"checkbox"` for
checkbox widgets, `"text"` for every other widget type. -/
def widgetTypeStr (t : WidgetType) : String :=
  if t = WidgetType.checkbox then "checkbox" else "text"

/-- One record of the Field Inventory (the dict built at lines 109-115). -/
structure FieldRec where
  name : String
  type : String
  value : String
  page : Nat
  rect : List ℚ
deriving DecidableEq

/-- `extract_fields_with_positions` (MedFill.py lines 104-116): walk the
pages with 1-based numbering and record every widget's name, kind tag,
current value, page number and rectangle. -/
def extract_fields_with_positions (d : PdfDoc) : List FieldRec :=
  (enumPages 1 d.pages).flatMap fun pp =>
    pp.2.widgets.map fun w =>
      { name := w.field_name
        type := widgetTypeStr w.field_type
        value := w.field_value
        page := pp.1
        rect := w.rect }

/-!
### Page Isolator (`make_page_part`, lines 75-101)
-/

/-- A single-page document produced by `make_page_part`: either a
structural copy of the page with its widget annotations stripped, or a
rasterized image of the page embedded at the given dimensions. -/
inductive PagePart where
  | structural : PdfPage → PagePart
  | image : ℚ → ℚ → PagePart

/-- The primary path of `make_page_part` (lines 82-90): copy the page
and delete its widgets; `copyError` models the `Exception` the source
catches on this path. -/
def primaryCopy (p : PdfPage) : Except String PagePart :=
  match p.copyError with
  | some e => .error e
  | none => .ok (PagePart.structural { p with widgets := [] })

/-- The fallback path (lines 92-101): rasterize the page and embed the
pixmap in a new single page sized to the original page's rect. -/
def fallbackRender (p : PdfPage) : PagePart :=
  PagePart.image p.width p.height

/-- `make_page_part`: try the structural copy, and on any exception
fall back to the image-based copy.  An out-of-range page index is the
only propagated failure (`src[page_no-1]` would raise in both paths). -/
def make_page_part (d : PdfDoc) (page_no : Nat) : Except String PagePart :=
  match d.pages[page_no - 1]? with
  | none => .error "IndexError"
  | some p =>
    match primaryCopy p with
    | .ok part => .ok part
    | .error _ => .ok (fallbackRender p)

/-!
### Form Filler (the fill loop of the button handler, lines 233-243)
-/

/-- The canonical checked value written to checkbox widgets (line 240). -/
def checkboxChecked : String := "Yes"

/-- The canonical unchecked value written to checkbox widgets (line 240). -/
def checkboxUnchecked : String := "Off"

/-- Python `dict` lookup over the accumulated field mapping (the
pipeline keeps keys unique, see `dictSet`). -/
def dictGet : List (String × JVal) → String → Option JVal
  | [], _ => none
  | (k, v) :: rest, key => if k = key then some v else dictGet rest key

/-- The value written into a mapped widget (lines 239-242): checkboxes
get `"Yes"`/`"Off"` by truthiness, every other widget gets `str(val)`. -/
def fillValue (w : Widget) (v : JVal) : String :=
  if w.field_type = WidgetType.checkbox then
    (if pyBool v then checkboxChecked else checkboxUnchecked)
  else pyStr v

/-- One widget after the fill loop: updated when its name is a key of
the mapping, untouched otherwise (lines 236-243). -/
def fillWidget (fm : List (String × JVal)) (w : Widget) : Widget :=
  match dictGet fm w.field_name with
  | some v => { w with field_value := fillValue w v }
  | none => w

/-- One page after the fill loop. -/
def fillPage (fm : List (String × JVal)) (pg : PdfPage) : PdfPage :=
  { pg with widgets := pg.widgets.map (fillWidget fm) }

/-- The whole document after the fill loop (lines 233-243). -/
def fillDoc (d : PdfDoc) (fm : List (String × JVal)) : PdfDoc :=
  ⟨d.pages.map (fillPage fm)⟩

/-!
### The per-page context/mapping loop (lines 150-230)

The inference oracle is abstracted per spec sections 6 and 9 as the
free-text responses it returns for each page's two calls; everything
the loop does with those responses is embedded.
-/

/-- The oracle's free-text responses, per page: context-annotation call
and field-mapping call. -/
structure Oracle where
  ctxResp : Nat → List Char
  mapResp : Nat → List Char

/-- `json.loads(extract_json(resp))` — the recovery-then-strict-parse
step applied to each oracle response; either raised exception is an
`Except.error`. -/
def loadsRecovered (resp : List Char) : Except String JVal :=
  match extract_json resp with
  | .error e => .error e
  | .ok raw =>
    match loads raw with
    | some v => .ok v
    | none => .error "JSONDecodeError"

/-- Set one key of a Python dict: overwrite in place, else append. -/
def dictSet : List (String × JVal) → String → JVal → List (String × JVal)
  | [], k, v => [(k, v)]
  | (k0, v0) :: rest, k, v =>
    if k0 = k then (k, v) :: rest else (k0, v0) :: dictSet rest k v

/-- Python `dict.update`: fold the new pairs into the dict. -/
def dictUpdate (d : List (String × JVal)) (new : List (String × JVal)) :
    List (String × JVal) :=
  new.foldl (fun acc kv => dictSet acc kv.1 kv.2) d

/-- The body of one iteration of the page loop (lines 154-230): recover
and parse the context response, then the mapping response, then merge
the mapping into the accumulated `field_mapping`.  No exception handler
surrounds the loop body in the source, so each step's failure is the
iteration's result. -/
def processPage (o : Oracle) (fm : List (String × JVal)) (page_no : Nat) :
    Except String (List (String × JVal)) :=
  match loadsRecovered (o.ctxResp page_no) with
  | .error e => .error e
  | .ok _ctx =>
    match loadsRecovered (o.mapResp page_no) with
    | .error e => .error e
    | .ok mapping =>
      match mapping with
      | .obj kvs => .ok (dictUpdate fm kvs)
      | _ => .error "TypeError"

/-- The page loop itself: iterate `processPage` over the sorted page
numbers, threading `field_mapping`; an uncaught exception in any
iteration terminates the whole loop (and with it the run — the source
has no per-page handler). -/
def runPages (o : Oracle) (fm : List (String × JVal)) :
    List Nat → Except String (List (String × JVal))
  | [] => .ok fm
  | p :: rest =>
    match processPage o fm p with
    | .error e => .error e
    | .ok fm2 => runPages o fm2 rest

/-!
### Concrete documents, mappings and oracle responses used to settle
the claims on explicit inputs
-/

/-- An oracle whose page-1 context response has no JSON delimiters and
whose other responses are well-formed: page 1's recovery fails, page 2
alone would contribute a mapping. -/
def cexOracle : Oracle :=
  ⟨fun p => if p = 1 then "the model replied with prose and no JSON at all".data
            else "\x7b\x7d".data,
   fun _ => "\x7b\"T1\": \"x\"\x7d".data⟩

/-- An oracle whose context responses recover fine but whose mapping
responses contain no JSON object. -/
def witOracle : Oracle :=
  ⟨fun _ => "\x7b\x7d".data, fun _ => "still no object in this reply".data⟩

/-- A strictly valid JSON object text, `\x7b"a": ",\x7d"\x7d`, whose
string value contains a comma directly before a closing brace. -/
def corruptibleJson : List Char := "\x7b\"a\": \",\x7d\"\x7d".data

/-- The near-JSON content `foo: 1, bar: "x",\x7d` embedded after `\x7b`
on a single line. -/
def oneLineQuasi : List Char := "\x7bfoo: 1, bar: \"x\",\x7d".data

/-- The same content embedded with the opening brace on its own line,
so only `foo` sits at a line start. -/
def newlineQuasi : List Char := "\x7b\nfoo: 1, bar: \"x\",\x7d".data

/-- The same content with every unquoted key at a line start. -/
def keysAtLineStarts : List Char := "\x7b\nfoo: 1,\nbar: \"x\",\x7d".data

/-- A page whose structural copy raises (an XRef-corruption exception
during widget removal). -/
def corruptPage : PdfPage :=
  ⟨[⟨"T1", WidgetType.text, "", [0, 0, 100, 20]⟩], 612, 792, some "xref damaged"⟩

/-- A page whose structural copy succeeds. -/
def healthyPage : PdfPage := ⟨[], 612, 792, none⟩

/-- A two-page document whose second page's structural copy raises. -/
def fallbackDoc : PdfDoc := ⟨[healthyPage, corruptPage]⟩

/-- A two-page document carrying a widget named `X` on both pages. -/
def dupNameDoc : PdfDoc :=
  ⟨[⟨[⟨"X", WidgetType.text, "", [0, 0, 10, 10]⟩], 612, 792, none⟩,
    ⟨[⟨"X", WidgetType.text, "", [0, 30, 10, 40]⟩], 612, 792, none⟩]⟩

/-- A two-page document whose field names are page-disjoint. -/
def disjointNameDoc : PdfDoc :=
  ⟨[⟨[⟨"T1", WidgetType.text, "", [0, 0, 10, 10]⟩], 612, 792, none⟩,
    ⟨[⟨"CB1", WidgetType.checkbox, "Off", [0, 30, 10, 40]⟩], 612, 792, none⟩]⟩

/-- A one-page document holding a text field `T9` pre-filled with
`prefill`, absent from every demo mapping below. -/
def unmappedDoc : PdfDoc :=
  ⟨[⟨[⟨"T9", WidgetType.text, "prefill", [0, 0, 10, 10]⟩], 612, 792, none⟩]⟩

/-- A demo field mapping: one checked checkbox, one unchecked checkbox,
one text value. -/
def demoFm : List (String × JVal) :=
  [("CB1", JVal.bool true), ("CB2", JVal.bool false), ("T1", JVal.str "Jane")]

/-- A checkbox widget mapped to `true` in `demoFm`. -/
def demoCheckboxT : Widget := ⟨"CB1", WidgetType.checkbox, "Off", [0, 0, 10, 10]⟩

/-- A checkbox widget mapped to `false` in `demoFm`. -/
def demoCheckboxF : Widget := ⟨"CB2", WidgetType.checkbox, "Yes", [0, 0, 10, 10]⟩

/-- A text widget mapped to a string in `demoFm`. -/
def demoTextW : Widget := ⟨"T1", WidgetType.text, "", [0, 0, 10, 10]⟩

/-- A radio-button widget (a non-checkbox widget kind). -/
def demoRadio : Widget := ⟨"R1", WidgetType.radiobutton, "", [0, 0, 10, 10]⟩

/-- A mapping sending the radio-button field to boolean `true`. -/
def radioFm : List (String × JVal) := [("R1", JVal.bool true)]

/-!
### Helper lemmas about `pyFind`/`pyRfind` and slicing
-/

theorem pyFind_eq_none_iff (c : Char) (s : List Char) : pyFind c s = none ↔ c ∉ s := by
  induction s with
  | nil => simp [pyFind]
  | cons x xs ih =>
    by_cases h : x = c
    · subst h; simp [pyFind]
    · simp only [pyFind, if_neg h, Option.map_eq_none', ih, List.mem_cons]
      constructor
      · rintro hn (rfl | hm)
        · exact h rfl
        · exact hn hm
      · intro hn hm; exact hn (Or.inr hm)

theorem pyRfind_eq_none_iff (c : Char) (s : List Char) : pyRfind c s = none ↔ c ∉ s := by
  induction s with
  | nil => simp [pyRfind]
  | cons x xs ih =>
    cases hx : pyRfind c xs with
    | some i =>
      have hmem : c ∈ xs := by
        by_contra hm
        rw [← ih] at hm
        rw [hx] at hm
        exact Option.noConfusion hm
      simp [pyRfind, hx, List.mem_cons, hmem]
    | none =>
      have hmem : c ∉ xs := ih.1 hx
      by_cases h : x = c
      · subst h; simp [pyRfind, hx]
      · simp only [pyRfind, hx, if_neg h, List.mem_cons]
        constructor
        · rintro _ (rfl | hm)
          · exact h rfl
          · exact hmem hm
        · intro _; trivial

theorem pyFind_append_self (c : Char) (pre m : List Char) (h : c ∉ pre) :
    pyFind c (pre ++ c :: m) = some pre.length := by
  induction pre with
  | nil => simp [pyFind]
  | cons x xs ih =>
    have hx : ¬ x = c := by rintro rfl; exact h (List.mem_cons_self x xs)
    have hnx : c ∉ xs := fun hc => h (List.mem_cons_of_mem x hc)
    simp [pyFind, hx, ih hnx]

theorem pyRfind_append_right (c : Char) (l post : List Char) (h : c ∉ post) :
    pyRfind c (l ++ post) = pyRfind c l := by
  induction l with
  | nil => simpa [pyRfind] using (pyRfind_eq_none_iff c post).2 h
  | cons x xs ih => simp [pyRfind, ih]

theorem pyRfind_of_getLast (c : Char) (l : List Char) (h : l.getLast? = some c) :
    pyRfind c l = some (l.length - 1) := by
  induction l with
  | nil => simp at h
  | cons x xs ih =>
    cases xs with
    | nil =>
      have hx : x = c := by simpa using h
      subst hx; simp [pyRfind]
    | cons y ys =>
      rw [List.getLast?_cons_cons] at h
      have hr := ih h
      simp only [List.length_cons, Nat.add_sub_cancel] at hr
      show (match pyRfind c (y :: ys) with
            | some i => some (i + 1)
            | none => if x = c then some 0 else none) = _
      rw [hr]
      simp

/-!
### Claim C2 — failure condition of the Quasi-JSON Recoverer
-/

/-- Claim C2: for every input text, `extract_json` fails with the "no
JSON object found" error exactly when the text contains no opening
brace or no closing brace; when both are present it returns a repaired
string without raising. -/
theorem extract_json_error_iff_no_delimiters (t : List Char) :
    (extract_json t = .error "No JSON object found" ↔ (braceL ∉ t ∨ braceR ∉ t)) ∧
    (braceL ∈ t → braceR ∈ t → ∃ r, extract_json t = .ok r) := by
  rcases hf : pyFind braceL t with _ | i
  · have hnot : braceL ∉ t := (pyFind_eq_none_iff _ _).1 hf
    refine ⟨⟨fun _ => Or.inl hnot, fun _ => by simp [extract_json, hf]⟩,
      fun hm _ => absurd hm hnot⟩
  · have hmemL : braceL ∈ t := by
      by_contra hm
      rw [← pyFind_eq_none_iff, hf] at hm
      exact Option.noConfusion hm
    rcases hr : pyRfind braceR t with _ | j
    · have hnot : braceR ∉ t := (pyRfind_eq_none_iff _ _).1 hr
      refine ⟨⟨fun _ => Or.inr hnot, fun _ => by simp [extract_json, hf, hr]⟩,
        fun _ hm => absurd hm hnot⟩
    · have hmemR : braceR ∈ t := by
        by_contra hm
        rw [← pyRfind_eq_none_iff, hr] at hm
        exact Option.noConfusion hm
      constructor
      · constructor
        · intro h
          simp [extract_json, hf, hr] at h
        · rintro (hm | hm)
          · exact absurd hmemL hm
          · exact absurd hmemR hm
      · intro _ _
        exact ⟨sub2 (sub1 (pySlice t i (j + 1))), by simp [extract_json, hf, hr]⟩

/-- Witness for C2: a concrete brace-free text fails with the source's
error, and a concrete braced text is returned repaired. -/
theorem extract_json_error_iff_no_delimiters_witness :
    (extract_json "no json in this reply".data = .error "No JSON object found") ∧
    (∃ r, extract_json "\x7b\x7d".data = .ok r) :=
  ⟨(extract_json_error_iff_no_delimiters "no json in this reply".data).1.2
      (Or.inl (by decide)),
   (extract_json_error_iff_no_delimiters "\x7b\x7d".data).2 (by decide) (by decide)⟩

/-!
### Claim C9 — misordered delimiters do not raise
-/

/-- Claim C9: when the text contains both braces but the last closing
brace precedes the first opening brace, `extract_json` still returns a
string — the empty one, since the Python slice bounds cross — so the
"no JSON object found" error is reserved for an absent delimiter. -/
theorem extract_json_ok_of_both_delimiters (t : List Char)
    (h1 : braceL ∈ t) (h2 : braceR ∈ t) :
    ∃ r, extract_json t = .ok r ∧
      ∀ i j, pyFind braceL t = some i → pyRfind braceR t = some j → j < i → r = [] := by
  rcases hf : pyFind braceL t with _ | i
  · exact absurd h1 ((pyFind_eq_none_iff _ _).1 hf)
  rcases hr : pyRfind braceR t with _ | j
  · exact absurd h2 ((pyRfind_eq_none_iff _ _).1 hr)
  refine ⟨sub2 (sub1 (pySlice t i (j + 1))), by simp [extract_json, hf, hr], ?_⟩
  intro i' j' hi hj hlt
  obtain rfl : i = i' := Option.some.inj hi
  obtain rfl : j = j' := Option.some.inj hj
  have hz : pySlice t i (j + 1) = [] := by
    unfold pySlice
    have : j + 1 - i = 0 := by omega
    simp [this]
  rw [hz]
  rfl

/-- Witness for C9: on `"\x7d prose \x7b"` the Recoverer returns the
empty string instead of raising. -/
theorem extract_json_ok_of_both_delimiters_witness :
    extract_json "\x7d prose \x7b".data = .ok [] := by
  obtain ⟨r, hr, hempty⟩ :=
    extract_json_ok_of_both_delimiters "\x7d prose \x7b".data (by decide) (by decide)
  have h0 : r = [] := hempty 8 0 (by decide) (by decide) (by decide)
  rw [h0] at hr
  exact hr

/-!
### Claim C3 — the repair passes and already-valid JSON
-/

/-- Counterexample to claim C3: the text `\x7b"a": ",\x7d"\x7d` is a
strictly valid JSON object (with empty surrounding prose) whose direct
parse binds `a` to the string `,\x7d`; the trailing-comma repair regex
is not string-aware, deletes the comma inside the string literal, and
recovery-then-parse yields `a` bound to `\x7d` — a different object. -/
theorem recoverer_corrupts_valid_json_cex :
    loads corruptibleJson = some (JVal.obj [("a", JVal.str ",\x7d")]) ∧
    extract_json corruptibleJson = .ok ("\x7b\"a\": \"\x7d\"\x7d".data) ∧
    (match extract_json corruptibleJson with
     | .ok r => loads r
     | .error _ => none) = some (JVal.obj [("a", JVal.str "\x7d")]) ∧
    some (JVal.obj [("a", JVal.str ",\x7d")]) ≠ some (JVal.obj [("a", JVal.str "\x7d")]) := by
  refine ⟨rfl, rfl, rfl, ?_⟩
  intro h
  simp at h

/-- Claim C3 (amended): for a text decomposed as prose (free of opening
braces), a strictly valid JSON object, and trailing prose (free of
closing braces), and whose object the two repair passes leave unchanged
— no bare line-start identifier before a colon and no comma-whitespace
run before a closer, conditions every brace-and-bracket-balanced object
without such substrings in its string literals meets — the Recoverer
returns exactly the embedded object, so strict parsing reproduces the
same structured value as parsing the embedded object directly.  (The
unamended claim, without the leave-unchanged condition, is refuted by
`recoverer_corrupts_valid_json_cex`.) -/
theorem recoverer_preserves_untouched_valid_json
    (pre obj post : List Char)
    (hpre : braceL ∉ pre) (hpost : braceR ∉ post)
    (hhead : obj.head? = some braceL) (hlast : obj.getLast? = some braceR)
    (j : JVal) (hvalid : loads obj = some j)
    (h1 : sub1 obj = obj) (h2 : sub2 obj = obj) :
    extract_json (pre ++ obj ++ post) = .ok obj ∧
    (match extract_json (pre ++ obj ++ post) with
     | .ok r => loads r
     | .error _ => none) = some j := by
  obtain ⟨m, rfl⟩ : ∃ m, obj = braceL :: m := by
    cases obj with
    | nil => exact absurd hhead (by simp)
    | cons x xs =>
      have hx : x = braceL := by simpa using hhead
      exact ⟨xs, by rw [hx]⟩
  have hfind : pyFind braceL ((pre ++ braceL :: m) ++ post) = some pre.length := by
    rw [List.append_assoc, List.cons_append]
    exact pyFind_append_self braceL pre (m ++ post) hpre
  have hlast2 : (pre ++ braceL :: m).getLast? = some braceR := by
    rw [List.getLast?_append_cons]
    exact hlast
  have hrfind : pyRfind braceR ((pre ++ braceL :: m) ++ post) =
      some (pre.length + m.length) := by
    rw [pyRfind_append_right _ _ _ hpost, pyRfind_of_getLast _ _ hlast2]
    simp
  have hslice : pySlice ((pre ++ braceL :: m) ++ post) pre.length
      (pre.length + m.length + 1) = braceL :: m := by
    unfold pySlice
    rw [List.append_assoc, List.drop_left]
    have hn : pre.length + m.length + 1 - pre.length = m.length + 1 := by omega
    rw [hn]
    exact List.take_left' (by simp)
  have hmain : extract_json ((pre ++ braceL :: m) ++ post) = .ok (braceL :: m) := by
    simp only [extract_json, hfind, hrfind]
    rw [hslice, h1, h2]
  exact ⟨hmain, by rw [hmain]; exact hvalid⟩

/-- Witness for the amended C3: prose-wrapped `\x7b"a": 1\x7d` survives
the Recoverer byte-for-byte and parses to the same object. -/
theorem recoverer_preserves_untouched_valid_json_witness :
    extract_json ("Sure, the JSON follows: ".data ++ "\x7b\"a\": 1\x7d".data ++ " end.".data) =
      .ok ("\x7b\"a\": 1\x7d".data) ∧
    (match extract_json ("Sure, the JSON follows: ".data ++ "\x7b\"a\": 1\x7d".data ++ " end.".data) with
     | .ok r => loads r
     | .error _ => none) = some (JVal.obj [("a", JVal.num "1")]) :=
  recoverer_preserves_untouched_valid_json
    "Sure, the JSON follows: ".data "\x7b\"a\": 1\x7d".data " end.".data
    (by decide) (by decide) (by decide) (by decide)
    (JVal.obj [("a", JVal.num "1")]) rfl rfl rfl

/-!
### Claim C4 — the `foo: 1, bar: "x",\x7d` repair scenario
-/

/-- Counterexample to claim C4: with the near-JSON content
`foo: 1, bar: "x",\x7d` embedded after an opening brace — on one line,
or with the brace on its own line — the key-repair regex, being
anchored to line starts, requotes at most `foo`, and the Recoverer's
output fails strict parsing instead of yielding the claimed object. -/
theorem repair_single_line_fails_cex :
    extract_json oneLineQuasi = .ok ("\x7bfoo: 1, bar: \"x\"\x7d".data) ∧
    (match extract_json oneLineQuasi with
     | .ok r => loads r
     | .error _ => none) = none ∧
    extract_json newlineQuasi = .ok ("\x7b\n\"foo\": 1, bar: \"x\"\x7d".data) ∧
    (match extract_json newlineQuasi with
     | .ok r => loads r
     | .error _ => none) = none :=
  ⟨rfl, rfl, rfl, rfl⟩

/-- Claim C4 (amended): when each unquoted key of the near-JSON content
sits at a line start — `\x7b`, `foo: 1,`, `bar: "x",\x7d` on separate
lines — the Recoverer requotes both keys and drops the trailing comma,
and its output parses strictly to the object binding `foo` to `1` and
`bar` to `"x"`; with the content on a single line the keys are not at
line starts, are left unquoted, and strict parsing fails (see
`repair_single_line_fails_cex`). -/
theorem repair_line_anchored_keys_ok :
    extract_json keysAtLineStarts = .ok ("\x7b\n\"foo\": 1,\n\"bar\": \"x\"\x7d".data) ∧
    (match extract_json keysAtLineStarts with
     | .ok r => loads r
     | .error _ => none) =
      some (JVal.obj [("foo", JVal.num "1"), ("bar", JVal.str "x")]) :=
  ⟨rfl, rfl⟩

/-!
### Claim C1 — propagation of per-page oracle-response failures
-/

/-- Counterexample to claim C1: with an oracle whose page-1 context
response fails recovery while page 2's responses are well-formed, the
page loop over pages 1 and 2 aborts with the recovery error — page 2 is
never processed — although the loop over page 2 alone would succeed and
contribute its mapping.  The failure is fatal to the run, not confined
to the failing page. -/
theorem per_page_failure_not_confined_cex :
    runPages cexOracle [] [1, 2] = .error "No JSON object found" ∧
    runPages cexOracle [] [2] = .ok [("T1", JVal.str "x")] :=
  ⟨rfl, rfl⟩

/-- Claim C1 (amended): a recovery or strict-parse failure of either
per-page oracle response propagates out of the page loop as the run's
result — the source wraps only the whole-document patient-info step in
a handler, so per-page failures abort the whole run instead of skipping
the page. -/
theorem per_page_failure_propagates (o : Oracle) (fm : List (String × JVal))
    (p : Nat) (rest : List Nat) (e : String)
    (h : loadsRecovered (o.ctxResp p) = .error e ∨
         (∃ v, loadsRecovered (o.ctxResp p) = .ok v ∧
               loadsRecovered (o.mapResp p) = .error e)) :
    runPages o fm (p :: rest) = .error e := by
  rcases h with h | ⟨v, hv, h⟩
  · simp [runPages, processPage, h]
  · simp [runPages, processPage, hv, h]

/-- Witness for the amended C1: a mapping response without JSON
delimiters on the only page makes the whole loop return that error. -/
theorem per_page_failure_propagates_witness :
    runPages witOracle [] [3] = .error "No JSON object found" :=
  per_page_failure_propagates witOracle [] 3 [] "No JSON object found"
    (Or.inr ⟨JVal.obj [], rfl, rfl⟩)

/-!
### Claim C5 — the Page Isolator's fallback guarantee
-/

/-- Claim C5: for a valid 1-based page number of a well-formed document
`make_page_part` always returns a single-page result — the structural
exception of the copy path is never propagated — and whenever that path
raises, the result is the image-based page rasterized at the original
page's dimensions. -/
theorem make_page_part_total_with_image_fallback (d : PdfDoc) (n : Nat) (p : PdfPage)
    (h : d.pages[n - 1]? = some p) :
    (∃ part, make_page_part d n = .ok part) ∧
    (∀ e, p.copyError = some e →
      make_page_part d n = .ok (PagePart.image p.width p.height)) := by
  constructor
  · cases hc : p.copyError with
    | some e =>
      exact ⟨PagePart.image p.width p.height,
        by simp [make_page_part, h, primaryCopy, hc, fallbackRender]⟩
    | none =>
      exact ⟨PagePart.structural { p with widgets := [] },
        by simp [make_page_part, h, primaryCopy, hc]⟩
  · intro e he
    simp [make_page_part, h, primaryCopy, he, fallbackRender]

/-- Witness for C5: page 2 of `fallbackDoc` raises on structural copy,
and the Isolator returns the image-based page at the original 612x792
dimensions instead of propagating. -/
theorem make_page_part_total_with_image_fallback_witness :
    make_page_part fallbackDoc 2 = .ok (PagePart.image corruptPage.width corruptPage.height) :=
  (make_page_part_total_with_image_fallback fallbackDoc 2 corruptPage rfl).2
    "xref damaged" rfl

/-!
### Claim C6 — field names versus page numbers in the inventory
-/

/-- Counterexample to claim C6: a document carrying a widget named `X`
on page 1 and another named `X` on page 2 — the container format allows
one field's widgets on several pages — yields an inventory with two
records of the same name and different page numbers; the extractor
performs no deduplication. -/
theorem duplicate_name_two_pages_cex :
    ¬ (∀ a ∈ extract_fields_with_positions dupNameDoc,
        ∀ b ∈ extract_fields_with_positions dupNameDoc,
          a.name = b.name → a.page = b.page) := by
  decide

/-- Claim C6 (amended): provided the document's widget names are
page-disjoint — no name occurs on two distinct pages, the invariant the
spec assumes of well-formed forms — any two inventory records sharing a
name carry equal page numbers; the unamended universal claim is refuted
by `duplicate_name_two_pages_cex`. -/
theorem extractor_page_unique_of_disjoint_names (d : PdfDoc)
    (hdisj : ∀ x ∈ enumPages 1 d.pages, ∀ y ∈ enumPages 1 d.pages, x.1 ≠ y.1 →
      ∀ w1 ∈ x.2.widgets, ∀ w2 ∈ y.2.widgets, w1.field_name ≠ w2.field_name) :
    ∀ a ∈ extract_fields_with_positions d, ∀ b ∈ extract_fields_with_positions d,
      a.name = b.name → a.page = b.page := by
  intro a ha b hb hname
  unfold extract_fields_with_positions at ha hb
  obtain ⟨x, hx, ha2⟩ := List.mem_flatMap.mp ha
  obtain ⟨w1, hw1, ha3⟩ := List.mem_map.mp ha2
  obtain ⟨y, hy, hb2⟩ := List.mem_flatMap.mp hb
  obtain ⟨w2, hw2, hb3⟩ := List.mem_map.mp hb2
  subst ha3
  subst hb3
  by_cases hxy : x.1 = y.1
  · simpa using hxy
  · exact absurd (by simpa using hname) (hdisj x hx y hy hxy w1 hw1 w2 hw2)

/-- Witness for the amended C6: the disjointness hypothesis holds of a
concrete two-page document, and applying the theorem to the concrete
`T1` inventory record closes its conclusion. -/
theorem extractor_page_unique_of_disjoint_names_witness :
    ({ name := "T1", type := "text", value := "", page := 1,
       rect := [0, 0, 10, 10] } : FieldRec).page =
      ({ name := "T1", type := "text", value := "", page := 1,
         rect := [0, 0, 10, 10] } : FieldRec).page :=
  extractor_page_unique_of_disjoint_names disjointNameDoc (by decide)
    { name := "T1", type := "text", value := "", page := 1, rect := [0, 0, 10, 10] }
    (by decide)
    { name := "T1", type := "text", value := "", page := 1, rect := [0, 0, 10, 10] }
    (by decide) rfl

/-!
### Claim C7 — the Form Filler touches only mapped fields
-/

/-- Claim C7: a widget whose field name is not a key of the accumulated
mapping comes out of the fill loop unchanged — same value, same
everything — at its original position. -/
theorem filler_preserves_unmapped_fields (d : PdfDoc) (fm : List (String × JVal))
    (i k : Nat) (pg : PdfPage) (w : Widget)
    (hi : d.pages[i]? = some pg) (hk : pg.widgets[k]? = some w)
    (hnone : dictGet fm w.field_name = none) :
    ∃ pg2, (fillDoc d fm).pages[i]? = some pg2 ∧ pg2.widgets[k]? = some w := by
  refine ⟨fillPage fm pg, ?_, ?_⟩
  · simp [fillDoc, List.getElem?_map, hi]
  · simp [fillPage, List.getElem?_map, hk, fillWidget, hnone]

/-- Witness for C7: the `T9` widget, absent from `demoFm`, keeps its
pre-fill value `prefill`. -/
theorem filler_preserves_unmapped_fields_witness :
    ∃ pg2, (fillDoc unmappedDoc demoFm).pages[0]? = some pg2 ∧
      pg2.widgets[0]? = some ⟨"T9", WidgetType.text, "prefill", [0, 0, 10, 10]⟩ :=
  filler_preserves_unmapped_fields unmappedDoc demoFm 0 0
    ⟨[⟨"T9", WidgetType.text, "prefill", [0, 0, 10, 10]⟩], 612, 792, none⟩
    ⟨"T9", WidgetType.text, "prefill", [0, 0, 10, 10]⟩ rfl rfl rfl

/-!
### Claim C8 — type-correct application of mapped values
-/

/-- Claim C8: a mapped checkbox receives the canonical checked value on
boolean `true` and the canonical unchecked value on boolean `false`; a
mapped text field receives exactly the mapped string. -/
theorem filler_type_correct (fm : List (String × JVal)) (w : Widget) :
    (w.field_type = WidgetType.checkbox →
      (dictGet fm w.field_name = some (JVal.bool true) →
        (fillWidget fm w).field_value = checkboxChecked) ∧
      (dictGet fm w.field_name = some (JVal.bool false) →
        (fillWidget fm w).field_value = checkboxUnchecked)) ∧
    (w.field_type = WidgetType.text →
      ∀ s : String, dictGet fm w.field_name = some (JVal.str s) →
        (fillWidget fm w).field_value = s) := by
  constructor
  · intro hcb
    constructor
    · intro hv
      simp [fillWidget, hv, fillValue, hcb, pyBool]
    · intro hv
      simp [fillWidget, hv, fillValue, hcb, pyBool]
  · intro ht s hv
    have hne : w.field_type ≠ WidgetType.checkbox := by rw [ht]; decide
    simp [fillWidget, hv, fillValue, hne, pyStr]

/-- Witness for C8 on the demo mapping: checked, unchecked and text
cases at concrete widgets. -/
theorem filler_type_correct_witness :
    (fillWidget demoFm demoCheckboxT).field_value = checkboxChecked ∧
    (fillWidget demoFm demoCheckboxF).field_value = checkboxUnchecked ∧
    (fillWidget demoFm demoTextW).field_value = "Jane" :=
  ⟨((filler_type_correct demoFm demoCheckboxT).1 rfl).1 rfl,
   ((filler_type_correct demoFm demoCheckboxF).1 rfl).2 rfl,
   (filler_type_correct demoFm demoTextW).2 rfl "Jane" rfl⟩

/-!
### Claim C10 — every non-checkbox widget is "text" and gets `str(val)`
-/

/-- Claim C10: the inventory classifies every widget whose type is not
checkbox — radio buttons, combo boxes, list boxes, signatures — as kind
`"text"`, and at fill time every mapped non-checkbox widget receives
the Python string form of its mapped value, whatever the widget's
actual type. -/
theorem non_checkbox_classified_text_and_str_filled
    (fm : List (String × JVal)) (w : Widget) (v : JVal)
    (hnc : w.field_type ≠ WidgetType.checkbox) :
    widgetTypeStr w.field_type = "text" ∧
    (dictGet fm w.field_name = some v → (fillWidget fm w).field_value = pyStr v) := by
  constructor
  · simp [widgetTypeStr, hnc]
  · intro hv
    simp [fillWidget, hv, fillValue, hnc]

/-- Witness for C10: a radio-button widget is classified `"text"`, and
mapping it to boolean `true` writes the Python string `True` into it. -/
theorem non_checkbox_classified_text_and_str_filled_witness :
    widgetTypeStr demoRadio.field_type = "text" ∧
    (fillWidget radioFm demoRadio).field_value = "True" := by
  have h := non_checkbox_classified_text_and_str_filled radioFm demoRadio
    (JVal.bool true) (by decide)
  refine ⟨h.1, ?_⟩
  have h2 := h.2 rfl
  rw [h2]
  simp [pyStr, pyRepr]

end MedFill
